import Mathlib

/-!
Verification development for the NixOS Raspberry Pi post-boot setup tool
(`setup-tool.py`): a shallow embedding of its validators, key sources,
wizard navigation, and apply pipeline, with theorems settling the stated
properties of each component.

Python strings are modelled as Lean `String` (both are sequences of code
points); `str.strip()` and `str.split()` are reimplemented over `List Char`
with Python's semantics.
-/

/-- ASCII whitespace as recognised by Python `str.strip()` / `str.split()`. -/
def isPyWs (c : Char) : Bool :=
  c == ' ' || c == '\t' || c == '\n' || c == '\x0d' ||
  c == Char.ofNat 11 || c == Char.ofNat 12

/-- Drop leading and trailing whitespace characters, as `str.strip()`. -/
def stripChars (cs : List Char) : List Char :=
  ((cs.dropWhile isPyWs).reverse.dropWhile isPyWs).reverse

/-- Python `s.strip()`. -/
def pyStrip (s : String) : String :=
  String.mk (stripChars s.data)

/-- Split a character list at every separator satisfying `p`, keeping empty
fields, as Python `str.split(sep)` does for a one-character separator. -/
def splitOnP (p : Char → Bool) : List Char → List (List Char)
  | [] => [[]]
  | c :: cs =>
    if p c then [] :: splitOnP p cs
    else
      match splitOnP p cs with
      | [] => [[c]]
      | t :: ts => (c :: t) :: ts

/-- Python `s.split('\n')`: fields between newline characters, empties kept. -/
def pySplitNl (s : String) : List String :=
  (splitOnP (fun c => c == '\n') s.data).map String.mk

/-- Python `s.split()` with no argument: fields between whitespace runs,
with no empty fields. -/
def pySplitWs (s : String) : List String :=
  ((splitOnP isPyWs s.data).filter (fun l => !l.isEmpty)).map String.mk

/-- The fixed list of recognised SSH key types (`valid_types` in the source). -/
def valid_types : List String :=
  ["ssh-rsa", "ssh-ed25519", "ssh-dss",
   "ecdsa-sha2-nistp256", "ecdsa-sha2-nistp384", "ecdsa-sha2-nistp521",
   "sk-ssh-ed25519", "sk-ecdsa-sha2-nistp256"]

/-- A character of the base64 alphabet `[A-Za-z0-9+/]`. -/
def isB64Char (c : Char) : Bool :=
  c.isAlpha || c.isDigit || c == '+' || c == '/'

/-- Full match of the source's regex `[A-Za-z0-9+/]+=\x7b0,2\x7d` anchored at
both ends: a nonempty base64 run followed by zero to two padding characters. -/
def isB64Data (d : String) : Bool :=
  let cs := d.data
  let core := cs.takeWhile isB64Char
  let rest := cs.drop core.length
  !core.isEmpty && rest.all (fun c => c == '=') && Nat.ble rest.length 2

/-- The token checks of `validate_ssh_key` on the whitespace-split parts:
at least two tokens, a recognised type token, base64-shaped key data. -/
def validate_parts : List String → Bool × String
  | key_type :: key_data :: _ =>
    if key_type ∈ valid_types then
      if isB64Data key_data then (true, "Valid SSH key")
      else (false, "Invalid SSH key data (not valid base64)")
    else (false, "Unsupported SSH key type: " ++ key_type)
  | _ => (false, "Invalid SSH key format: must have at least type and key data")

/-- Embedding of `validate_ssh_key`: strip, require nonempty input, split on
whitespace, then apply the token checks; returns validity plus the
human-readable reason. -/
def validate_ssh_key (key0 : String) : Bool × String :=
  if pyStrip key0 = "" then (false, "SSH key is empty")
  else validate_parts (pySplitWs (pyStrip key0))

/-! ## Key sources -/

/-- Embedding of the response handling of `fetch_github_keys` after a
successful transport: the body is decoded and stripped; an empty body is the
distinct "no keys for user" failure, otherwise the stripped body is returned. -/
def fetch_github_keys_body (body : String) : Option String :=
  let keys := pyStrip body
  if keys = "" then none else some keys

/-- The per-line filtering of `SSHGithubScreen.on_button_pressed`: split the
fetched text on newlines, strip each line, keep the nonempty lines that pass
`validate_ssh_key`. -/
def github_valid_keys (result : String) : List String :=
  ((pySplitNl result).map pyStrip).filter
    (fun k => !(k == "") && (validate_ssh_key k).1)

/-- Embedding of the continue branch of `SSHGithubScreen.on_button_pressed`
given the raw response body: `none` means the screen re-displays with an error
and does not advance; `some ks` means it advances with `ks` as the resolved
keys. -/
def githubContinue (body : String) : Option (List String) :=
  match fetch_github_keys_body body with
  | none => none
  | some result =>
    if github_valid_keys result = [] then none
    else some (github_valid_keys result)

/-- Embedding of the continue branch of `SSHPasteScreen.on_button_pressed`:
the pasted text is stripped as a whole and validated once as a single key
blob; `some k` means the screen advances having stored `k` as the validated
key, `none` means it re-displays the validation message. -/
def pasteContinue (text : String) : Option String :=
  if (validate_ssh_key (pyStrip text)).1 then some (pyStrip text) else none

/-- Embedding of `read_key_from_file` (content given) composed with the
validation in `SSHFileScreen.on_button_pressed`: the file content is stripped,
an empty file fails, and the content must validate as a single key blob. -/
def fileContinue (content : String) : Option String :=
  if pyStrip content = "" then none
  else if (validate_ssh_key (pyStrip content)).1 then some (pyStrip content)
  else none

/-! ## Other wizard step handlers -/

/-- A hostname character, per the source regex `[a-zA-Z0-9-]`. -/
def isHostnameChar (c : Char) : Bool :=
  c.isAlpha || c.isDigit || c == '-'

/-- Embedding of the continue branch of `HostNameScreen.on_button_pressed`:
strip, reject empty input, invalid characters, or length above 63;
`some h` advances with hostname `h`. -/
def hostnameContinue (input : String) : Option String :=
  if pyStrip input = "" then none
  else if !(pyStrip input).data.all isHostnameChar then none
  else if 63 < (pyStrip input).length then none
  else some (pyStrip input)

/-- Embedding of the continue branch of `GitHubRunnerScreen.on_button_pressed`:
both token and URL are stripped and must be nonempty; the token-shape regex
only warns and never blocks. `some (t, u)` advances with the staged values. -/
def runnerContinue (token url : String) : Option (String × String) :=
  if pyStrip token = "" then none
  else if pyStrip url = "" then none
  else some (pyStrip token, pyStrip url)

/-- The inputs of the WiFi screen: the configure checkbox and the two fields. -/
structure WifiForm where
  configure : Bool
  ssid : String
  password : String
deriving DecidableEq

/-- The mutable session state (`SetupState` in the source), restricted to the
configuration fields; widget handles and display-only fields are omitted. -/
structure SetupState where
  ssh_method : Option String
  ssh_github_username : String
  ssh_public_key : String
  ssh_file_path : String
  validated_ssh_key : String
  runner_token : String
  runner_url : String
  hostname : String
  timezone : String
  configure_wifi : Bool
  wifi_ssid : String
  wifi_password : String
deriving DecidableEq

/-- The default runner URL constant. -/
def DEFAULT_RUNNER_URL : String := "https://github.com/denysvitali/nix-hil-rpi"

/-- The default hostname constant. -/
def DEFAULT_HOSTNAME : String := "pi4-smoke-test"

/-- The default timezone constant. -/
def DEFAULT_TIMEZONE : String := "UTC"

/-- The state built by `SetupState.__init__`. -/
def initState : SetupState :=
  { ssh_method := none
    ssh_github_username := ""
    ssh_public_key := ""
    ssh_file_path := ""
    validated_ssh_key := ""
    runner_token := ""
    runner_url := DEFAULT_RUNNER_URL
    hostname := DEFAULT_HOSTNAME
    timezone := DEFAULT_TIMEZONE
    configure_wifi := false
    wifi_ssid := ""
    wifi_password := "" }

/-- Embedding of the continue branch of `WiFiScreen.on_button_pressed`: with
the checkbox ticked, SSID and password are stripped, an empty SSID or a
password shorter than eight characters re-displays the screen without touching
the state (`none`); otherwise the WiFi fields are stored and the screen
advances. With the checkbox clear, `configure_wifi` is set to `false` and the
screen advances. -/
def wifiContinue (form : WifiForm) (st : SetupState) : Option SetupState :=
  if form.configure then
    if pyStrip form.ssid = "" then none
    else if (pyStrip form.password).length < 8 then none
    else some { st with configure_wifi := true, wifi_ssid := pyStrip form.ssid,
                        wifi_password := pyStrip form.password }
  else
    some { st with configure_wifi := false }

/-- `'\n'.join(valid_keys)`, used to store the resolved GitHub keys. -/
def joinLines (ks : List String) : String :=
  String.intercalate "\n" ks

/-- One state-mutating wizard transition: each constructor mirrors the state
writes of one screen handler's successful (or skip) path, guarded by the same
validation outcome the handler checks before writing. -/
inductive WizardStep : SetupState → SetupState → Prop
  | chooseMethod (st : SetupState) (m : String) :
      WizardStep st { st with ssh_method := some m }
  | githubFetch (st : SetupState) (username body : String) (vk : List String)
      (h : githubContinue body = some vk) :
      WizardStep st { st with ssh_github_username := username,
                              validated_ssh_key := joinLines vk }
  | pasteKey (st : SetupState) (text k : String)
      (h : pasteContinue text = some k) :
      WizardStep st { st with ssh_public_key := k, validated_ssh_key := k }
  | fileKey (st : SetupState) (path content k : String)
      (h : fileContinue content = some k) :
      WizardStep st { st with ssh_file_path := path, validated_ssh_key := k }
  | runnerCreds (st : SetupState) (token url t u : String)
      (h : runnerContinue token url = some (t, u)) :
      WizardStep st { st with runner_token := t, runner_url := u }
  | hostnameSet (st : SetupState) (input h2 : String)
      (h : hostnameContinue input = some h2) :
      WizardStep st { st with hostname := h2 }
  | timezoneSet (st : SetupState) (tz : String) :
      WizardStep st { st with timezone := tz }
  | wifiSkip (st : SetupState) :
      WizardStep st { st with configure_wifi := false }
  | wifiSubmit (st st' : SetupState) (form : WifiForm)
      (h : wifiContinue form st = some st') :
      WizardStep st st'

/-- A session state reachable from the initial state through wizard steps. -/
def ReachableState (st : SetupState) : Prop :=
  Relation.ReflTransGen WizardStep initState st

/-! ## Navigation -/

/-- The wizard screens (one per `Screen` subclass). -/
inductive ScreenId
  | welcome
  | sshMethod
  | sshGithub
  | sshPaste
  | sshFile
  | runnerScr
  | hostnameScr
  | timezoneScr
  | wifiScr
  | summary
  | applyScr
deriving DecidableEq

/-- Whether a screen offers a back action (a `back` button together with the
`b` key binding in the source): every screen has one except `WelcomeScreen`
and `ApplyScreen` (whose `BINDINGS` list is empty and whose only button is
`exit`). -/
def hasBack : ScreenId → Bool
  | ScreenId.welcome => false
  | ScreenId.applyScr => false
  | _ => true

/-- The forward `push_screen` edges of the screen handlers: which screen each
handler can push from which screen. -/
def forwardEdge : ScreenId → ScreenId → Bool
  | ScreenId.welcome, ScreenId.sshMethod => true
  | ScreenId.sshMethod, ScreenId.sshGithub => true
  | ScreenId.sshMethod, ScreenId.sshPaste => true
  | ScreenId.sshMethod, ScreenId.sshFile => true
  | ScreenId.sshGithub, ScreenId.runnerScr => true
  | ScreenId.sshPaste, ScreenId.runnerScr => true
  | ScreenId.sshFile, ScreenId.runnerScr => true
  | ScreenId.runnerScr, ScreenId.hostnameScr => true
  | ScreenId.hostnameScr, ScreenId.timezoneScr => true
  | ScreenId.timezoneScr, ScreenId.wifiScr => true
  | ScreenId.timezoneScr, ScreenId.summary => true
  | ScreenId.wifiScr, ScreenId.summary => true
  | ScreenId.summary, ScreenId.applyScr => true
  | _, _ => false

/-- The back action on the screen stack (head is the active screen): it is
`pop_screen`, available only where the screen offers it. -/
def backStep : List ScreenId → Option (List ScreenId)
  | [] => none
  | s :: rest => if hasBack s then some rest else none

/-! ## Filesystem model and the apply pipeline -/

/-- The filesystem, as a partial map from paths to file contents. -/
def FS : Type := String → Option String

/-- Writing a file. -/
def fsWrite (fs : FS) (p c : String) : FS :=
  fun q => if q = p then some c else fs q

/-- Deleting a file (`Path.unlink`). -/
def fsErase (fs : FS) (p : String) : FS :=
  fun q => if q = p then none else fs q

/-- The backup path used by `backup_file` for timestamp `ts`. -/
def backupName (p ts : String) : String :=
  p ++ ".backup." ++ ts

/-- Embedding of `backup_file`: if the path exists, copy its content to the
timestamp-suffixed backup path; otherwise do nothing. -/
def backup_file (ts : String) (fs : FS) (p : String) : FS :=
  match fs p with
  | some c => fsWrite fs (backupName p ts) c
  | none => fs

/-- The path of the declarative WiFi artifact. -/
def wifiNixPath : String := "/etc/nixos/wifi.nix"

/-- The generated `wifi.nix` content, as produced by the source's template. -/
def wifi_nix (ssid psk : String) : String :=
  "# Generated by NixOS Raspberry Pi setup tool\n\x7b config, pkgs, lib, ... \x7d:\n\x7b\n  networking.wireless = \x7b\n    enable = true;\n    networks = \x7b\n      \"" ++ ssid ++ "\" = \x7b\n        psk = \"" ++ psk ++ "\";\n      \x7d;\n    \x7d;\n  \x7d;\n\x7d\n"

/-- Embedding of the WiFi stage body (step 5 of `apply_configuration`): when
WiFi is configured, back up then overwrite the artifact; when it is not,
back up and delete any pre-existing artifact, otherwise change nothing. -/
def wifiStage (configure : Bool) (ssid psk ts : String) (fs : FS) : FS :=
  if configure then
    fsWrite (backup_file ts fs wifiNixPath) wifiNixPath (wifi_nix ssid psk)
  else if (fs wifiNixPath).isSome then
    fsErase (backup_file ts fs wifiNixPath) wifiNixPath
  else fs

/-- The six stages of `apply_configuration`, in source order. -/
inductive Stage
  | ssh
  | runnerStage
  | hostnameStage
  | timezoneStage
  | wifiStage
  | rebuild
deriving DecidableEq

/-- The stage order of `apply_configuration`. -/
def stageOrder : List Stage :=
  [Stage.ssh, Stage.runnerStage, Stage.hostnameStage,
   Stage.timezoneStage, Stage.wifiStage, Stage.rebuild]

/-- The control-flow skeleton of `apply_configuration`: attempt the stages in
order; each stage body is wrapped in a handler whose failure branch updates
the error log, reveals the exit button and returns from the coroutine, so a
failing stage ends the run. Returns the list of attempted stages and whether
the run reached the final success message. `fails s = true` models the stage
body of `s` raising. -/
def attemptStages (fails : Stage → Bool) : List Stage → List Stage × Bool
  | [] => ([], true)
  | s :: rest =>
    if fails s then ([s], false)
    else (s :: (attemptStages fails rest).1, (attemptStages fails rest).2)

/-- The run of `ApplyScreen.apply_configuration` over the six stages. -/
def apply_configuration (fails : Stage → Bool) : List Stage × Bool :=
  attemptStages fails stageOrder

/-- A failure oracle in which only the runner stage fails. -/
def failsRunnerOnly (s : Stage) : Bool :=
  s == Stage.runnerStage

/-- Embedding of the error detail built in step 6 of `apply_configuration`
when `nixos-rebuild` exits non-zero: the decoded error stream (or
"Unknown error" when it is empty) truncated to its first 500 characters by
the slice `error_msg[:500]`. -/
def rebuild_error_detail (stderrText : String) : String :=
  String.mk ((if stderrText = "" then "Unknown error" else stderrText).data.take 500)

/-- The outcome of the rebuild stage: `none` on exit code zero, otherwise
`some detail` with the surfaced failure detail. -/
def rebuildStage (returncode : Int) (stderrText : String) : Option String :=
  if returncode ≠ 0 then some (rebuild_error_detail stderrText) else none

/-- The last `n` characters of a string (the tail the specification speaks
of). -/
def lastChars (n : Nat) (s : String) : String :=
  String.mk (s.data.drop (s.data.length - n))

/-- Embedding of `main`: a non-root effective uid prints an error and returns
exit code 1 before the app starts; otherwise the app runs (including any
apply-pipeline outcome) and `main` returns 0 unconditionally. -/
def mainExit (euid : Nat) (fails : Stage → Bool) : Nat :=
  if euid ≠ 0 then 1
  else
    let _ := apply_configuration fails
    0

/-! ## Concrete instances used to witness the theorems -/

/-- An error stream of 1001 characters: an `A` followed by 1000 `B`s. -/
def bigErr : String :=
  String.mk ('A' :: List.replicate 1000 'B')

/-- A filesystem holding only a pre-existing WiFi artifact. -/
def fsWithWifi : FS :=
  fun q => if q = wifiNixPath then some "old-wifi" else none

/-- A filesystem holding only a pre-existing hostname artifact. -/
def fsDemo : FS :=
  fun q => if q = "/etc/nixos/hostname.nix" then some "old-host" else none

/-- A well-formed WiFi screen submission. -/
def demoWifiForm : WifiForm :=
  { configure := true, ssid := "HomeNet", password := "secret123" }

/-- The session state after submitting `demoWifiForm` from the initial state. -/
def demoWifiState : SetupState :=
  { initState with configure_wifi := true, wifi_ssid := "HomeNet",
                   wifi_password := "secret123" }

example : (validate_ssh_key "ssh-ed25519 AAAAC3NzaC1lZDI1NTE5AAAAIGZ2").1 = true := by decide

example : (validate_ssh_key "ssh-rsa !!!invalid!!!").1 = false := by decide

example : (validate_ssh_key "ssh-rsa !!!invalid!!!").2 = "Invalid SSH key data (not valid base64)" := by decide

example : (validate_ssh_key "  ").1 = false := by decide

example : (validate_ssh_key "foo AAAA").2 = "Unsupported SSH key type: foo" := by decide

example : pySplitWs "a  b\n c" = ["a", "b", "c"] := by decide

example : pySplitNl "a\n\nb" = ["a", "", "b"] := by decide

example : pyStrip "  hi \n" = "hi" := by decide

/-! ## Helper lemmas -/

theorem dropWhile_head_false (p : Char → Bool) (l : List Char) :
    l.dropWhile p = [] ∨ ∃ c cs, l.dropWhile p = c :: cs ∧ p c = false := by
  induction l with
  | nil => exact Or.inl rfl
  | cons a l ih =>
    by_cases h : p a
    · simpa [List.dropWhile_cons, h] using ih
    · exact Or.inr ⟨a, l, by simp [List.dropWhile_cons, h], by simp [h]⟩

theorem dropWhile_eq_self_of_head (p : Char → Bool) (l : List Char)
    (h : l = [] ∨ ∃ c cs, l = c :: cs ∧ p c = false) : l.dropWhile p = l := by
  rcases h with h | ⟨c, cs, h, hpc⟩
  · simp [h]
  · simp [h, List.dropWhile_cons, hpc]

theorem stripChars_idem (cs : List Char) :
    stripChars (stripChars cs) = stripChars cs := by
  unfold stripChars
  rcases dropWhile_head_false isPyWs cs with hA | ⟨a, as, hA, hpa⟩
  · simp [hA]
  · rw [hA]
    have hsplit :
        ((a :: as).reverse.takeWhile isPyWs) ++ ((a :: as).reverse.dropWhile isPyWs)
          = (a :: as).reverse :=
      List.takeWhile_append_dropWhile isPyWs ((a :: as).reverse)
    have h1 : ((a :: as).reverse.dropWhile isPyWs).reverse.dropWhile isPyWs
        = ((a :: as).reverse.dropWhile isPyWs).reverse := by
      rcases hBr : ((a :: as).reverse.dropWhile isPyWs).reverse with _ | ⟨x, xs⟩
      · simp
      · have happ :
            ((a :: as).reverse.dropWhile isPyWs).reverse
              ++ ((a :: as).reverse.takeWhile isPyWs).reverse = a :: as := by
          rw [← List.reverse_append, hsplit, List.reverse_reverse]
        rw [hBr] at happ
        have hx : x = a := by
          have hh := congrArg List.head? happ
          simpa using hh
        rw [hx]
        exact dropWhile_eq_self_of_head isPyWs _ (Or.inr ⟨a, xs, rfl, hpa⟩)
    have h2 : ((a :: as).reverse.dropWhile isPyWs).dropWhile isPyWs
        = (a :: as).reverse.dropWhile isPyWs :=
      dropWhile_eq_self_of_head isPyWs _ (dropWhile_head_false isPyWs (a :: as).reverse)
    rw [h1, List.reverse_reverse, h2]

theorem pyStrip_idem (s : String) : pyStrip (pyStrip s) = pyStrip s :=
  congrArg String.mk (stripChars_idem s.data)

theorem pyStrip_length_le (s : String) : (pyStrip s).length ≤ s.length := by
  show (stripChars s.data).length ≤ s.data.length
  unfold stripChars
  calc (((s.data.dropWhile isPyWs).reverse.dropWhile isPyWs).reverse).length
      = ((s.data.dropWhile isPyWs).reverse.dropWhile isPyWs).length := by
        rw [List.length_reverse]
    _ ≤ (s.data.dropWhile isPyWs).reverse.length :=
        (List.dropWhile_sublist isPyWs).length_le
    _ = (s.data.dropWhile isPyWs).length := by rw [List.length_reverse]
    _ ≤ s.data.length := (List.dropWhile_sublist isPyWs).length_le

theorem backupName_ne (p ts : String) : backupName p ts ≠ p := by
  intro h
  have hlen := congrArg String.length h
  rw [backupName, String.length_append, String.length_append] at hlen
  have h8 : String.length ".backup." = 8 := rfl
  omega

theorem validate_accept_iff (s : String) :
    (validate_ssh_key s).1 = true ↔
      ∃ t d rest, pySplitWs (pyStrip s) = t :: d :: rest ∧ t ∈ valid_types ∧
        isB64Data d = true := by
  unfold validate_ssh_key
  by_cases h0 : pyStrip s = ""
  · have hsp : pySplitWs (pyStrip s) = [] := by rw [h0]; decide
    rw [hsp]
    simp [h0]
  · rw [if_neg h0]
    rcases hsp : pySplitWs (pyStrip s) with _ | ⟨t, _ | ⟨d, rest⟩⟩
    · simp [validate_parts]
    · simp [validate_parts]
    · by_cases ht : t ∈ valid_types
      · by_cases hd : isB64Data d
        · simp [validate_parts, ht, hd]
          exact ⟨t, d, ⟨rfl, rfl⟩, ht, hd⟩
        · simp [validate_parts, ht, hd]
      · simp [validate_parts, ht]

theorem validate_reject_reason (s : String) (h : (validate_ssh_key s).1 = false) :
    (validate_ssh_key s).2 = "SSH key is empty" ∨
    (validate_ssh_key s).2 =
      "Invalid SSH key format: must have at least type and key data" ∨
    (∃ t, (validate_ssh_key s).2 = "Unsupported SSH key type: " ++ t ∧
      t ∉ valid_types) ∨
    (validate_ssh_key s).2 = "Invalid SSH key data (not valid base64)" := by
  have hacc := validate_accept_iff s
  unfold validate_ssh_key
  by_cases h0 : pyStrip s = ""
  · rw [if_pos h0]
    exact Or.inl rfl
  · rw [if_neg h0]
    rcases hsp : pySplitWs (pyStrip s) with _ | ⟨t, _ | ⟨d, rest⟩⟩
    · exact Or.inr (Or.inl rfl)
    · exact Or.inr (Or.inl rfl)
    · by_cases ht : t ∈ valid_types
      · by_cases hd : isB64Data d
        · exact absurd (hacc.2 ⟨t, d, rest, hsp, ht, hd⟩) (by simp [h])
        · refine Or.inr (Or.inr (Or.inr ?_))
          simp [validate_parts, ht, hd]
      · refine Or.inr (Or.inr (Or.inl ⟨t, ?_, ht⟩))
        simp [validate_parts, ht]

/-! ## Claim theorems -/

theorem attemptStages_ok_iff (fails : Stage → Bool) (l : List Stage) :
    (attemptStages fails l).2 = true ↔ ∀ s ∈ l, fails s = false := by
  induction l with
  | nil => simp [attemptStages]
  | cons a l ih =>
    by_cases h : fails a = true
    · simp only [attemptStages, if_pos h]
      constructor
      · intro hfalse; cases hfalse
      · intro hall
        exact absurd (hall a (List.mem_cons_self a l)) (by simp [h])
    · have h' : fails a = false := by simpa using h
      simp [attemptStages, h', ih]

/-- C1 counterexample: with a failure oracle in which only the runner stage
fails, the run of `apply_configuration` attempts only the ssh and runner
stages; the hostname, timezone, wifi and rebuild stages are never attempted,
contradicting the claim that all six stages are still attempted. -/
theorem C1_counterexample :
    (apply_configuration failsRunnerOnly).1 = [Stage.ssh, Stage.runnerStage]
    ∧ Stage.hostnameStage ∉ (apply_configuration failsRunnerOnly).1
    ∧ Stage.timezoneStage ∉ (apply_configuration failsRunnerOnly).1
    ∧ Stage.wifiStage ∉ (apply_configuration failsRunnerOnly).1
    ∧ Stage.rebuild ∉ (apply_configuration failsRunnerOnly).1
    ∧ (apply_configuration failsRunnerOnly).2 = false := by decide

/-- C1 (amended): the apply pipeline is fail-fast, not fail-soft: the run
reports success exactly when none of the six stages fails, and the first
failing stage ends the run, leaving the remaining stages unattempted; in
particular a runner-stage failure after a successful ssh stage leaves exactly
the ssh and runner stages attempted. -/
theorem C1_fail_fast (fails : Stage → Bool) :
    ((apply_configuration fails).2 = true ↔ ∀ s ∈ stageOrder, fails s = false)
    ∧ (fails Stage.ssh = false → fails Stage.runnerStage = true →
        (apply_configuration fails).1 = [Stage.ssh, Stage.runnerStage]) := by
  constructor
  · exact attemptStages_ok_iff fails stageOrder
  · intro h1 h2
    simp [apply_configuration, stageOrder, attemptStages, h1, h2]

/-- C1 witness: the amended theorem applied to the all-succeed oracle and to
the runner-only failure oracle. -/
theorem C1_fail_fast_witness :
    ((apply_configuration (fun _ => false)).2 = true ↔
      ∀ s ∈ stageOrder, (fun _ : Stage => false) s = false)
    ∧ (apply_configuration failsRunnerOnly).1 = [Stage.ssh, Stage.runnerStage] :=
  ⟨(C1_fail_fast (fun _ => false)).1,
   (C1_fail_fast failsRunnerOnly).2 (by decide) (by decide)⟩

/-- C2: SSH-key validation accepts a string exactly when, after trimming, it
splits on whitespace into at least two tokens whose first token is one of the
eight recognised key types and whose second token is base64-shaped; every
rejected string gets one of the four reasons (empty input, too few tokens, the
unrecognised type named, or invalid base64 data). -/
theorem C2_validate_ssh_key_spec (s : String) :
    ((validate_ssh_key s).1 = true ↔
      ∃ t d rest, pySplitWs (pyStrip s) = t :: d :: rest ∧ t ∈ valid_types ∧
        isB64Data d = true)
    ∧ ((validate_ssh_key s).1 = false →
        (validate_ssh_key s).2 = "SSH key is empty" ∨
        (validate_ssh_key s).2 =
          "Invalid SSH key format: must have at least type and key data" ∨
        (∃ t, (validate_ssh_key s).2 = "Unsupported SSH key type: " ++ t ∧
          t ∉ valid_types) ∨
        (validate_ssh_key s).2 = "Invalid SSH key data (not valid base64)") :=
  ⟨validate_accept_iff s, validate_reject_reason s⟩

/-- C2 witness: the specification applied to the two scenario inputs: a valid
Ed25519 key is accepted, and a key with malformed data is rejected with one
of the enumerated reasons. -/
theorem C2_validate_witness :
    (validate_ssh_key "ssh-ed25519 AAAAC3NzaC1lZDI1NTE5AAAAIGZ2").1 = true
    ∧ ((validate_ssh_key "ssh-rsa !!!invalid!!!").2 = "SSH key is empty" ∨
       (validate_ssh_key "ssh-rsa !!!invalid!!!").2 =
         "Invalid SSH key format: must have at least type and key data" ∨
       (∃ t, (validate_ssh_key "ssh-rsa !!!invalid!!!").2 =
          "Unsupported SSH key type: " ++ t ∧ t ∉ valid_types) ∨
       (validate_ssh_key "ssh-rsa !!!invalid!!!").2 =
         "Invalid SSH key data (not valid base64)") :=
  ⟨(C2_validate_ssh_key_spec "ssh-ed25519 AAAAC3NzaC1lZDI1NTE5AAAAIGZ2").1.mpr
      ⟨"ssh-ed25519", "AAAAC3NzaC1lZDI1NTE5AAAAIGZ2", [], by decide, by decide,
        by decide⟩,
   (C2_validate_ssh_key_spec "ssh-rsa !!!invalid!!!").2 (by decide)⟩

/-- C3 counterexample: a run with elevated privilege in which the runner stage
fails still exits with code 0, contradicting the claim that any stage failure
yields exit code 1. -/
theorem C3_counterexample :
    mainExit 0 failsRunnerOnly = 0
    ∧ (apply_configuration failsRunnerOnly).2 = false := by decide

/-- C3 (amended): the process exit code is 1 exactly when the tool is invoked
without root privilege, and 0 whenever it is invoked as root, regardless of
whether any pipeline stage failed. -/
theorem C3_exit_code (euid : Nat) (fails : Stage → Bool) :
    (mainExit euid fails = 0 ↔ euid = 0)
    ∧ (mainExit euid fails = 1 ↔ euid ≠ 0) := by
  unfold mainExit
  by_cases h : euid = 0 <;> simp [h]

/-- C3 witness: the amended theorem applied at a non-root uid and at root with
a failing stage oracle. -/
theorem C3_exit_code_witness :
    (mainExit 5 (fun _ => false) = 1 ↔ (5 : Nat) ≠ 0)
    ∧ (mainExit 0 failsRunnerOnly = 0 ↔ (0 : Nat) = 0) :=
  ⟨(C3_exit_code 5 (fun _ => false)).2, (C3_exit_code 0 failsRunnerOnly).1⟩

/-- C4: GitHub key resolution trims and revalidates each response line and
keeps exactly the passing subset in response order: with a nonempty stripped
body and at least one valid line the screen advances with precisely the valid
subset; when no line is valid it fails and does not advance; every resolved
key passes the validator, and the resolved list is a sublist of the trimmed
response lines. -/
theorem C4_github_line_filtering (body : String) :
    (pyStrip body ≠ "" → github_valid_keys (pyStrip body) ≠ [] →
      githubContinue body = some (github_valid_keys (pyStrip body)))
    ∧ (github_valid_keys (pyStrip body) = [] → githubContinue body = none)
    ∧ (∀ k ∈ github_valid_keys (pyStrip body), (validate_ssh_key k).1 = true)
    ∧ List.Sublist (github_valid_keys (pyStrip body))
        ((pySplitNl (pyStrip body)).map pyStrip) := by
  refine ⟨?_, ?_, ?_, ?_⟩
  · intro h0 hvk
    unfold githubContinue fetch_github_keys_body
    rw [if_neg h0]
    show (if github_valid_keys (pyStrip body) = [] then none
          else some (github_valid_keys (pyStrip body)))
        = some (github_valid_keys (pyStrip body))
    rw [if_neg hvk]
  · intro hvk
    unfold githubContinue fetch_github_keys_body
    by_cases h0 : pyStrip body = ""
    · rw [if_pos h0]
    · rw [if_neg h0]
      show (if github_valid_keys (pyStrip body) = [] then none
            else some (github_valid_keys (pyStrip body))) = none
      rw [if_pos hvk]
  · intro k hk
    unfold github_valid_keys at hk
    simp only [List.mem_filter, Bool.and_eq_true] at hk
    exact hk.2.2
  · exact List.filter_sublist _

/-- C4 witness: scenario B: a two-line response with one valid Ed25519 key and
one malformed line resolves to exactly the one valid key. -/
theorem C4_github_witness :
    githubContinue "ssh-ed25519 AAAAC3NzaC1lZDI1NTE5AAAAIGZ2\nnot-a-key"
      = some ["ssh-ed25519 AAAAC3NzaC1lZDI1NTE5AAAAIGZ2"] := by
  have h :=
    (C4_github_line_filtering
        "ssh-ed25519 AAAAC3NzaC1lZDI1NTE5AAAAIGZ2\nnot-a-key").1
      (by decide) (by decide)
  rw [h]
  decide

/-- C5 counterexample: two valid keys separated by a newline are pasted as one
blob; the paste path accepts them (the claim says it rejects every input that
is not exactly one type-and-data pair), storing the whole two-key blob, whose
whitespace split has four tokens. -/
theorem C5_counterexample :
    pasteContinue "ssh-ed25519 AAAATESTKEYA\nssh-ed25519 BBBBTESTKEYB"
      = some "ssh-ed25519 AAAATESTKEYA\nssh-ed25519 BBBBTESTKEYB"
    ∧ (validate_ssh_key "ssh-ed25519 AAAATESTKEYA").1 = true
    ∧ (validate_ssh_key "ssh-ed25519 BBBBTESTKEYB").1 = true
    ∧ (pySplitWs "ssh-ed25519 AAAATESTKEYA\nssh-ed25519 BBBBTESTKEYB").length
        = 4 := by decide

/-- C5 (amended): the paste path trims the whole pasted text and validates it
once as a single blob, never line-by-line: whatever it stores is the whole
stripped text, and it accepts exactly when the first whitespace token of the
blob is a recognised type and the second is base64-shaped, so extra tokens —
including further keys on later lines — are ignored rather than rejected. -/
theorem C5_paste_single_blob (text : String) :
    (∀ k, pasteContinue text = some k → k = pyStrip text)
    ∧ ((pasteContinue text).isSome = true ↔
        ∃ t d rest, pySplitWs (pyStrip text) = t :: d :: rest ∧
          t ∈ valid_types ∧ isB64Data d = true) := by
  constructor
  · intro k hk
    unfold pasteContinue at hk
    by_cases h : (validate_ssh_key (pyStrip text)).1 = true
    · rw [if_pos h] at hk
      exact (Option.some_inj.mp hk).symm
    · rw [if_neg h] at hk
      cases hk
  · unfold pasteContinue
    by_cases h : (validate_ssh_key (pyStrip text)).1 = true
    · rw [if_pos h]
      have hstruct := (validate_accept_iff (pyStrip text)).mp h
      rw [pyStrip_idem] at hstruct
      exact ⟨fun _ => hstruct, fun _ => rfl⟩
    · rw [if_neg h]
      constructor
      · intro hf; cases hf
      · rintro ⟨t, d, rest, hsp, ht, hd⟩
        refine absurd ((validate_accept_iff (pyStrip text)).mpr
          ⟨t, d, rest, ?_, ht, hd⟩) h
        rw [pyStrip_idem]
        exact hsp

/-- C5 witness: the amended theorem applied to a single valid key: the paste
path accepts it. -/
theorem C5_paste_witness :
    (pasteContinue "ssh-ed25519 AAAATESTKEYA").isSome = true :=
  (C5_paste_single_blob "ssh-ed25519 AAAATESTKEYA").2.mpr
    ⟨"ssh-ed25519", "AAAATESTKEYA", [], by decide, by decide, by decide⟩

/-- C6: when WiFi is not configured, the wifi stage enforces absence of the
artifact: afterwards the artifact path holds nothing; a pre-existing artifact
is first copied to the timestamp-suffixed backup path; when no artifact
exists the stage changes nothing; and no path other than the artifact and its
backup is touched. -/
theorem C6_wifi_absence (ssid psk ts : String) (fs : FS) :
    ((wifiStage false ssid psk ts fs) wifiNixPath = none)
    ∧ (∀ c, fs wifiNixPath = some c →
        (wifiStage false ssid psk ts fs) (backupName wifiNixPath ts) = some c)
    ∧ (fs wifiNixPath = none → wifiStage false ssid psk ts fs = fs)
    ∧ (∀ q, q ≠ wifiNixPath → q ≠ backupName wifiNixPath ts →
        (wifiStage false ssid psk ts fs) q = fs q) := by
  refine ⟨?_, ?_, ?_, ?_⟩
  · unfold wifiStage
    rcases hc : fs wifiNixPath with _ | c
    · simp [hc]
    · simp [hc, fsErase]
  · intro c hc
    unfold wifiStage
    simp [backup_file, fsErase, fsWrite, hc, backupName_ne wifiNixPath ts]
  · intro hc
    unfold wifiStage
    simp [hc]
  · intro q hq1 hq2
    unfold wifiStage
    rcases hc : fs wifiNixPath with _ | c
    · simp [hc]
    · simp [backup_file, fsErase, fsWrite, hc, hq1, hq2]

/-- C6 witness: the theorem applied to a filesystem holding a pre-existing
WiFi artifact: the artifact is gone afterwards and its content sits at the
backup path. -/
theorem C6_wifi_witness :
    (wifiStage false "s" "p" "20240101-000000" fsWithWifi) wifiNixPath = none
    ∧ (wifiStage false "s" "p" "20240101-000000" fsWithWifi)
        (backupName wifiNixPath "20240101-000000") = some "old-wifi" :=
  ⟨(C6_wifi_absence "s" "p" "20240101-000000" fsWithWifi).1,
   (C6_wifi_absence "s" "p" "20240101-000000" fsWithWifi).2.1 "old-wifi"
     (by simp [fsWithWifi])⟩

set_option maxRecDepth 8000 in
/-- C7 counterexample: on a 1001-character error stream the surfaced rebuild
failure detail is the first 500 characters, not the last 1000: it differs from
the 1000-character tail and has length 500. -/
theorem C7_counterexample :
    rebuildStage 1 bigErr = some (rebuild_error_detail bigErr)
    ∧ rebuild_error_detail bigErr ≠ lastChars 1000 bigErr
    ∧ (rebuild_error_detail bigErr).length = 500
    ∧ bigErr.length = 1001 := by decide

/-- C7 (amended): a non-zero rebuild exit is a stage failure whose detail is
the first 500 characters — a prefix, not a tail — of the captured error
stream (with a fixed placeholder when the stream is empty). -/
theorem C7_rebuild_detail (rc : Int) (stderrText : String) (h : rc ≠ 0) :
    rebuildStage rc stderrText = some (rebuild_error_detail stderrText)
    ∧ (rebuild_error_detail stderrText).length ≤ 500
    ∧ (∃ r, (if stderrText = "" then "Unknown error" else stderrText).data
        = (rebuild_error_detail stderrText).data ++ r) := by
  refine ⟨?_, ?_, ?_⟩
  · unfold rebuildStage
    rw [if_pos h]
  · show ((if stderrText = "" then "Unknown error"
        else stderrText).data.take 500).length ≤ 500
    rw [List.length_take]
    exact min_le_left _ _
  · exact ⟨(if stderrText = "" then "Unknown error" else stderrText).data.drop 500,
      (List.take_append_drop 500 _).symm⟩

/-- C7 witness: the amended theorem applied to exit code 1 and a short error
stream. -/
theorem C7_rebuild_witness :
    rebuildStage 1 "boom" = some (rebuild_error_detail "boom")
    ∧ (rebuild_error_detail "boom").length ≤ 500 :=
  ⟨(C7_rebuild_detail 1 "boom" (by decide)).1,
   (C7_rebuild_detail 1 "boom" (by decide)).2.1⟩

/-- C8: in every session state reachable through the wizard, WiFi enabled
implies a nonempty SSID and a password of length at least eight; and the WiFi
screen rejects — without advancing and without touching the state — every
submission with the configure box ticked whose SSID strips to empty or whose
password is shorter than eight characters, regardless of SSID validity. -/
theorem C8_wifi_invariant :
    (∀ st, ReachableState st → st.configure_wifi = true →
      st.wifi_ssid ≠ "" ∧ 8 ≤ st.wifi_password.length)
    ∧ (∀ (form : WifiForm) (st : SetupState), form.configure = true →
        (pyStrip form.ssid = "" ∨ form.password.length < 8) →
        wifiContinue form st = none) := by
  constructor
  · intro st hreach
    induction hreach with
    | refl => intro h; exact absurd h (by decide)
    | tail hsteps hstep ih =>
      cases hstep
      all_goals try exact ih
      case wifiSkip =>
        intro hcw
        simp at hcw
      case wifiSubmit =>
        rename_i form h
        unfold wifiContinue at h
        by_cases hcfg : form.configure = true
        · rw [if_pos hcfg] at h
          by_cases hs : pyStrip form.ssid = ""
          · rw [if_pos hs] at h; cases h
          · rw [if_neg hs] at h
            by_cases hp : (pyStrip form.password).length < 8
            · rw [if_pos hp] at h; cases h
            · rw [if_neg hp] at h
              have hst := Option.some_inj.mp h
              subst hst
              intro _
              exact ⟨hs, Nat.le_of_not_lt hp⟩
        · rw [if_neg hcfg] at h
          have hst := Option.some_inj.mp h
          subst hst
          intro hcw
          simp at hcw
  · intro form st hcfg hbad
    unfold wifiContinue
    rw [if_pos hcfg]
    by_cases hs : pyStrip form.ssid = ""
    · rw [if_pos hs]
    · rcases hbad with hbs | hbp
      · exact absurd hbs hs
      · rw [if_neg hs,
          if_pos (lt_of_le_of_lt (pyStrip_length_le form.password) hbp)]

/-- C8 witness: the invariant applied to the reachable state produced by a
well-formed WiFi submission, and the rejection clause applied to a submission
with a short password. -/
theorem C8_wifi_witness :
    (demoWifiState.wifi_ssid ≠ "" ∧ 8 ≤ demoWifiState.wifi_password.length)
    ∧ wifiContinue { configure := true, ssid := "Net", password := "short" }
        initState = none :=
  ⟨C8_wifi_invariant.1 demoWifiState
      (Relation.ReflTransGen.single
        (WizardStep.wifiSubmit initState demoWifiState demoWifiForm (by decide)))
      rfl,
   C8_wifi_invariant.2 { configure := true, ssid := "Net", password := "short" }
      initState rfl (Or.inr (by decide))⟩

/-- C9 counterexample: the Apply screen is a state other than Welcome with no
back action, contradicting the claim that back is available from every state
except Welcome. -/
theorem C9_counterexample :
    ScreenId.applyScr ≠ ScreenId.welcome ∧ hasBack ScreenId.applyScr = false := by
  decide

/-- C9 (amended): a back action is available from every screen except Welcome
and Apply, and where available it pops the screen stack, returning to the
immediately preceding state in traversal history — in particular, after any
forward edge (including the non-uniform SSH sub-screens and the conditional
WiFi screen) back returns to the screen the push came from. -/
theorem C9_back_navigation :
    (∀ s : ScreenId, hasBack s = true ↔
      (s ≠ ScreenId.welcome ∧ s ≠ ScreenId.applyScr))
    ∧ (∀ (s : ScreenId) (stack : List ScreenId), hasBack s = true →
        backStep (s :: stack) = some stack)
    ∧ (∀ (s t : ScreenId) (stack : List ScreenId), forwardEdge s t = true →
        hasBack t = true → backStep (t :: s :: stack) = some (s :: stack)) := by
  refine ⟨?_, ?_, ?_⟩
  · intro s
    cases s <;> decide
  · intro s stack h
    simp [backStep, h]
  · intro s t stack hf h
    simp [backStep, h]

/-- C9 witness: the amended theorem applied to the conditional WiFi screen
pushed from the Timezone screen: back pops to Timezone. -/
theorem C9_back_witness :
    backStep [ScreenId.wifiScr, ScreenId.timezoneScr, ScreenId.welcome]
      = some [ScreenId.timezoneScr, ScreenId.welcome] :=
  C9_back_navigation.2.2 ScreenId.timezoneScr ScreenId.wifiScr
    [ScreenId.welcome] (by decide) (by decide)

/-- C10: `backup_file` is non-destructive and conditional: when the target
exists, the backup path receives a copy of its content, the original remains
with unchanged content, and no other path changes; when the target does not
exist, the filesystem is unchanged. -/
theorem C10_backup_file (fs : FS) (p ts : String) :
    (∀ c, fs p = some c →
        backup_file ts fs p (backupName p ts) = some c
        ∧ backup_file ts fs p p = some c
        ∧ ∀ q, q ≠ backupName p ts → backup_file ts fs p q = fs q)
    ∧ (fs p = none → backup_file ts fs p = fs) := by
  constructor
  · intro c hc
    refine ⟨?_, ?_, ?_⟩
    · unfold backup_file
      rw [hc]
      simp [fsWrite]
    · unfold backup_file
      rw [hc]
      simp [fsWrite, Ne.symm (backupName_ne p ts), hc]
    · intro q hq
      unfold backup_file
      rw [hc]
      simp [fsWrite, hq]
  · intro hc
    unfold backup_file
    rw [hc]

/-- C10 witness: the theorem applied to a filesystem holding one artifact:
after the backup, the copy sits at the backup path and the original content is
untouched. -/
theorem C10_backup_witness :
    backup_file "20240101" fsDemo "/etc/nixos/hostname.nix"
        (backupName "/etc/nixos/hostname.nix" "20240101") = some "old-host"
    ∧ backup_file "20240101" fsDemo "/etc/nixos/hostname.nix"
        "/etc/nixos/hostname.nix" = some "old-host" :=
  ⟨((C10_backup_file fsDemo "/etc/nixos/hostname.nix" "20240101").1 "old-host"
      (by simp [fsDemo])).1,
   ((C10_backup_file fsDemo "/etc/nixos/hostname.nix" "20240101").1 "old-host"
      (by simp [fsDemo])).2.1⟩
